import Mathlib

/-!
Shallow embedding of the mailbox synchronization engine of the Ob repository
(backend/src/services/EmailSyncService.ts, AICategorizationService.ts,
SlackNotificationService.ts, WebhookIntegrationService.ts).

External effects — the IMAP client, the Elasticsearch index store, the Gemini
classifier call, the Slack webhook and the generic webhook endpoint — are
modelled by explicit response values passed into the embedded functions, and
mutation of the index store is modelled by explicit state passing over an
association list keyed by document id.  The sha1 hex digest is abstracted to
an arbitrary function argument: no claim depends on concrete digest values,
only on the digest being applied to the normalized identifier.
-/

namespace Ob

/-! ## Data model (backend/src/types/EmailAccount.ts and the imapflow shapes) -/

/-- EmailAccount interface (types/EmailAccount.ts). -/
structure EmailAccount where
  id : String
  host : String
  port : Nat
  username : String
  password : String
  tls : Bool
deriving DecidableEq, Repr

/-- MailboxInfo interface (types/EmailAccount.ts); specialUse is an optional
string field. -/
structure MailboxInfo where
  name : String
  path : String
  flags : List String
  specialUse : Option String := none
deriving DecidableEq, Repr

/-- One address object from an imapflow envelope; the code only reads
the address field. -/
structure EmailAddress where
  address : String
deriving DecidableEq, Repr

/-- The envelope of a fetched message, reduced to the fields handleEmail
reads; each is optional, matching the optional chaining in the source.
Dates are kept abstract as strings. -/
structure Envelope where
  messageId : Option String := none
  subject : Option String := none
  «from» : Option (List EmailAddress) := none
  «to» : Option (List EmailAddress) := none
  date : Option String := none
deriving DecidableEq, Repr

/-- imapflow FetchMessageObject, reduced to the fields handleEmail reads. -/
structure FetchMessageObject where
  envelope : Option Envelope := none
  source : Option String := none
deriving DecidableEq, Repr

/-- The document handleEmail persists to the emails index
(EmailSyncService.ts lines 273-289).  aiConfidence is always null in the
source; its carrier type is irrelevant and chosen decidable. -/
structure EmailDoc where
  id : String
  messageId : String
  subject : String
  «from» : String
  «to» : String
  date : String
  account : String
  folder : String
  folderType : Option String
  raw : String
  aiCategory : Option String
  aiConfidence : Option Nat
deriving DecidableEq, Repr

/-! ## String helpers

The JavaScript string primitives used by the source, embedded as
list-of-characters computations. -/

/-- Whitespace for the embedded trim. -/
def isWsChar (c : Char) : Bool :=
  c = ' ' || c = '\t' || c = '\n' || c = '\r'

/-- Trim whitespace from both ends of a character list. -/
def trimChars (l : List Char) : List Char :=
  ((l.dropWhile isWsChar).reverse.dropWhile isWsChar).reverse

/-- JS String.prototype.trim. -/
def strTrim (s : String) : String := String.mk (trimChars s.data)

/-- JS String.prototype.toLowerCase (ASCII letters, which is all the folder
keyword matching needs). -/
def strToLower (s : String) : String := String.mk (s.data.map Char.toLower)

/-- Substring containment on character lists (JS String.prototype.includes). -/
def charsInclude : List Char → List Char → Bool
  | _, [] => true
  | [], _ :: _ => false
  | c :: cs, sub => sub.isPrefixOf (c :: cs) || charsInclude cs sub

/-- JS String.prototype.includes. -/
def strIncludes (s sub : String) : Bool := charsInclude s.data sub.data

/-! ## Folder Classifier (EmailSyncService.determineSpecialUse, lines 142-167) -/

/-- EmailSyncService.determineSpecialUse: lower-case the folder name, try the
ordered name-keyword substring matches, then (the `if (flags)` guard in the
source is always true for an array) the ordered flag matches, else custom. -/
def determineSpecialUse (folderName : String) (flags : List String) : String :=
  let lowerName := strToLower folderName
  if strIncludes lowerName "inbox" then "inbox"
  else if strIncludes lowerName "sent" || strIncludes lowerName "sent mail" then "sent"
  else if strIncludes lowerName "draft" then "drafts"
  else if strIncludes lowerName "spam" || strIncludes lowerName "junk" then "spam"
  else if strIncludes lowerName "trash" || strIncludes lowerName "bin" then "trash"
  else if strIncludes lowerName "important" then "important"
  else if strIncludes lowerName "starred" then "starred"
  else if strIncludes lowerName "all mail" then "archive"
  else if flags.contains "\\Inbox" then "inbox"
  else if flags.contains "\\Sent" then "sent"
  else if flags.contains "\\Drafts" then "drafts"
  else if flags.contains "\\Junk" || flags.contains "\\Spam" then "spam"
  else if flags.contains "\\Trash" then "trash"
  else if flags.contains "\\Important" then "important"
  else if flags.contains "\\All" then "archive"
  else "custom"

/-- The first matching entry of the ordered name-keyword list of the spec's
Folder Classifier description (inbox, sent, draft, spam/junk, trash/bin,
important, starred, all mail→archive), applied to the lower-cased name. -/
def nameKeywordTag (lowerName : String) : Option String :=
  if strIncludes lowerName "inbox" then some "inbox"
  else if strIncludes lowerName "sent" then some "sent"
  else if strIncludes lowerName "draft" then some "drafts"
  else if strIncludes lowerName "spam" || strIncludes lowerName "junk" then some "spam"
  else if strIncludes lowerName "trash" || strIncludes lowerName "bin" then some "trash"
  else if strIncludes lowerName "important" then some "important"
  else if strIncludes lowerName "starred" then some "starred"
  else if strIncludes lowerName "all mail" then some "archive"
  else none

/-- The first matching entry of the ordered protocol-flag list. -/
def flagTag (flags : List String) : Option String :=
  if flags.contains "\\Inbox" then some "inbox"
  else if flags.contains "\\Sent" then some "sent"
  else if flags.contains "\\Drafts" then some "drafts"
  else if flags.contains "\\Junk" || flags.contains "\\Spam" then some "spam"
  else if flags.contains "\\Trash" then some "trash"
  else if flags.contains "\\Important" then some "important"
  else if flags.contains "\\All" then some "archive"
  else none

/-- The Folder Classifier as the spec words it: name keywords first, protocol
flags only when no name keyword matched, custom when neither matched. -/
def folderClassifierSpec (folderName : String) (flags : List String) : String :=
  match nameKeywordTag (strToLower folderName) with
  | some tag => tag
  | none =>
    match flagTag flags with
    | some tag => tag
    | none => "custom"

/-! ## Fingerprint (handleEmail, EmailSyncService.ts lines 250-251) -/

/-- The normalization applied to the raw protocol message identifier:
messageIdRaw.replace removing every angle bracket, then trim. -/
def normalizeMessageId (raw : String) : String :=
  strTrim (String.mk (raw.data.filter (fun c => !(c == '<' || c == '>'))))

/-- crypto.createHash sha1 hex digest of the normalized identifier; the digest
itself is abstracted as the hash argument. -/
def fingerprint (hash : String → String) (raw : String) : String :=
  hash (normalizeMessageId raw)

/-! ## Elasticsearch index-store model -/

/-- An error thrown by the Elasticsearch client; meta.statusCode is absent
(none) for transport-level failures. -/
structure ESError where
  statusCode : Option Nat := none
deriving DecidableEq, Repr

/-- The emails index, as an association list keyed by document id. -/
abbrev Store := List (String × EmailDoc)

/-- esClient.get semantics against an in-memory store: the document when the
id is present, otherwise a thrown error with statusCode 404. -/
def storeGet (store : Store) (id : String) : Except ESError EmailDoc :=
  match store.find? (fun p => p.1 == id) with
  | some p => .ok p.2
  | none => .error { statusCode := some 404 }

/-- esClient.index with an explicit id: create-or-overwrite by id. -/
def storePut (store : Store) (id : String) (doc : EmailDoc) : Store :=
  (id, doc) :: store.filter (fun p => p.1 != id)

/-! ## AI classification (AICategorizationService.ts) -/

/-- The LABELS list of AICategorizationService.ts. -/
def LABELS : List String :=
  ["Interested", "Meeting Booked", "Not Interested", "Spam", "Out of Office"]

/-- The Gemini HTTP response, reduced to the one field the code reads:
response.data?.candidates?.[0]?.content?.parts?.[0]?.text (may be absent). -/
structure GeminiResponse where
  text : Option String := none
deriving DecidableEq, Repr

/-- AICategorizationService.categorizeEmail (lines 21-54).  The axios call
outcome is the explicit response argument; the subject/body arguments only
feed the prompt sent over the network and do not influence the label
computation performed on the response.  On success the raw text is matched
case-insensitively against LABELS with default label Out of Office; the
catch branch returns the label Spam. -/
def categorizeEmail (subject body : String)
    (response : Except Unit GeminiResponse) : String :=
  match response with
  | .error _ => "Spam"
  | .ok r =>
    let labelRaw := r.text.getD ""
    ((LABELS.find? (fun l => strToLower l == strToLower (strTrim labelRaw))).getD
      "Out of Office")

/-! ## Notifiers (SlackNotificationService.ts, WebhookIntegrationService.ts) -/

/-- The payload both notifiers receive in handleEmail. -/
structure NotifyEvent where
  subject : String
  «from» : String
  account : String
deriving DecidableEq, Repr

/-- SlackNotificationService.sendInterestedEmailNotification: awaits
webhook.send with no catch of its own, so a send failure propagates to the
caller. -/
def sendInterestedEmailNotification (sendResponse : Except Unit Unit) :
    Except Unit Unit :=
  sendResponse

/-- WebhookIntegrationService.triggerInterestedEmailWebhook: the axios post is
wrapped in try/catch and every failure is logged and swallowed, so the call
always returns normally. -/
def triggerInterestedEmailWebhook (postResponse : Except Unit Unit) :
    Except Unit Unit :=
  match postResponse with
  | .ok _ => .ok ()
  | .error _ => .ok ()

/-! ## Processing pipeline (EmailSyncService.handleEmail, lines 246-317) -/

/-- The outcome of one handleEmail call. -/
inductive HandleOutcome where
  | noMessageId
  | alreadyExists
  | indexed (doc : EmailDoc)
  | threw (e : ESError)
deriving DecidableEq, Repr

/-- The externally visible effects of one run: index writes performed and
notifier calls made (a call is recorded whether or not the callee failed). -/
structure Trace where
  indexWrites : List (String × EmailDoc) := []
  slackCalls : List NotifyEvent := []
  webhookCalls : List NotifyEvent := []
deriving DecidableEq, Repr

/-- JS join of an optional address list:
msg.envelope?.from?.map(f => f.address).join(', ') || ''. -/
def joinAddresses (addrs : Option (List EmailAddress)) : String :=
  (addrs.map (fun l => String.intercalate ", " (l.map EmailAddress.address))).getD ""

/-- The document built in handleEmail (lines 273-289): fingerprint as id,
the normalized identifier as messageId, envelope projections with empty-string
defaults, new Date() modelled by the now argument, the folder's specialUse as
folderType, and literal null for aiCategory and aiConfidence. -/
def buildEmailDoc (hash : String → String) (now : String)
    (account : EmailAccount) (msg : FetchMessageObject) (folder : MailboxInfo)
    (messageIdRaw : String) : EmailDoc :=
  let messageIdClean := normalizeMessageId messageIdRaw
  { id := hash messageIdClean
    messageId := messageIdClean
    subject := (msg.envelope.bind Envelope.subject).getD ""
    «from» := joinAddresses (msg.envelope.bind Envelope.«from»)
    «to» := joinAddresses (msg.envelope.bind Envelope.«to»)
    date := (msg.envelope.bind Envelope.date).getD now
    account := account.id
    folder := folder.name
    folderType := folder.specialUse
    raw := msg.source.getD ""
    aiCategory := none
    aiConfidence := none }

/-- The try block at the end of handleEmail (lines 298-316): when the resolved
category is Interested, await the Slack notifier first; if it throws, the
shared catch swallows the failure and the webhook call is never reached;
otherwise await the webhook call (whose own failures are swallowed inside
triggerInterestedEmailWebhook).  Every call that was started is recorded. -/
def notificationPhase (ev : NotifyEvent) (aiCategory : String)
    (slackSendResponse webhookPostResponse : Except Unit Unit) : Trace :=
  if aiCategory == "Interested" then
    match sendInterestedEmailNotification slackSendResponse with
    | .error _ => { slackCalls := [ev] }
    | .ok _ =>
      match triggerInterestedEmailWebhook webhookPostResponse with
      | .ok _ => { slackCalls := [ev], webhookCalls := [ev] }
      | .error _ => { slackCalls := [ev], webhookCalls := [ev] }
  else
    {}

/-- EmailSyncService.handleEmail (lines 246-317).  The four external calls it
makes — the esClient.get dedup probe, the Gemini classification, the
esClient.index write and the notifier sends — are modelled by explicit
response arguments; indexResponse is the error the index write throws, if
any.  Returns the outcome together with the trace of effects. -/
def handleEmail (hash : String → String) (now : String)
    (getResponse : Except ESError Unit)
    (classifyResponse : Except Unit GeminiResponse)
    (indexResponse : Option ESError)
    (slackSendResponse webhookPostResponse : Except Unit Unit)
    (account : EmailAccount) (msg : FetchMessageObject) (folder : MailboxInfo) :
    HandleOutcome × Trace :=
  match msg.envelope.bind Envelope.messageId with
  | none => (.noMessageId, {})
  | some messageIdRaw =>
    match getResponse with
    | .ok _ => (.alreadyExists, {})
    | .error e =>
      if e.statusCode != some 404 then (.threw e, {})
      else
        let aiCategory :=
          categorizeEmail ((msg.envelope.bind Envelope.subject).getD "")
            (msg.source.getD "") classifyResponse
        let doc := buildEmailDoc hash now account msg folder messageIdRaw
        match indexResponse with
        | some e2 => (.threw e2, {})
        | none =>
          let tr :=
            notificationPhase
              { subject := doc.subject, «from» := doc.«from», account := account.id }
              aiCategory slackSendResponse webhookPostResponse
          (.indexed doc, { tr with indexWrites := [(doc.id, doc)] })

/-- The answer of the dedup get for a message against an in-memory store:
storeGet at the message's fingerprint (the value when there is no protocol
identifier is irrelevant, handleEmail returns before the probe). -/
def storeGetResponse (hash : String → String) (store : Store)
    (msg : FetchMessageObject) : Except ESError Unit :=
  match msg.envelope.bind Envelope.messageId with
  | none => .error { statusCode := some 404 }
  | some messageIdRaw => (storeGet store (fingerprint hash messageIdRaw)).map (fun _ => ())

/-- handleEmail run against an in-memory index store: the dedup get is answered
by storeGet at the message's fingerprint, the index write succeeds and is
applied to the store. -/
def handleEmailOnStore (hash : String → String) (now : String)
    (classifyResponse : Except Unit GeminiResponse)
    (slackSendResponse webhookPostResponse : Except Unit Unit)
    (store : Store) (account : EmailAccount) (msg : FetchMessageObject)
    (folder : MailboxInfo) : HandleOutcome × Trace × Store :=
  let r := handleEmail hash now (storeGetResponse hash store msg) classifyResponse none
    slackSendResponse webhookPostResponse account msg folder
  (r.1, r.2, r.2.indexWrites.foldl (fun s p => storePut s p.1 p.2) store)

/-! ## Folder discovery (EmailSyncService.getAllFolders, lines 117-140) -/

/-- One entry of the imapflow client.list() result as the code reads it:
name, path and an optional flag set (the source applies || [] before
Array.from). -/
structure ListedFolder where
  name : String
  path : String
  flags : Option (List String) := none
deriving DecidableEq, Repr

/-- EmailSyncService.getAllFolders: map each listed folder to a MailboxInfo
whose specialUse is computed by determineSpecialUse; if client.list() threw,
log and return the single fallback INBOX entry, which carries no specialUse
field. -/
def getAllFolders (listResponse : Except Unit (List ListedFolder)) :
    List MailboxInfo :=
  match listResponse with
  | .ok folders =>
    folders.map (fun f =>
      { name := f.name
        path := f.path
        flags := f.flags.getD []
        specialUse := some (determineSpecialUse f.name (f.flags.getD [])) })
  | .error _ =>
    [{ name := "INBOX", path := "INBOX", flags := [], specialUse := none }]

/-! ## Backfill loop (EmailSyncService.processFolderEmails, lines 169-196,
and the folder loop of connectAndSync, lines 97-109) -/

/-- One fetched message together with the responses of the external calls its
handleEmail run will make. -/
structure MessageInput where
  msg : FetchMessageObject
  getResponse : Except ESError Unit
  classifyResponse : Except Unit GeminiResponse
  indexResponse : Option ESError
  slackSendResponse : Except Unit Unit
  webhookPostResponse : Except Unit Unit
deriving Repr

/-- Concatenation of two effect traces. -/
def traceAppend (a b : Trace) : Trace :=
  { indexWrites := a.indexWrites ++ b.indexWrites
    slackCalls := a.slackCalls ++ b.slackCalls
    webhookCalls := a.webhookCalls ++ b.webhookCalls }

/-- The for-await loop over client.fetch inside processFolderEmails: each
message is awaited through handleEmail in sequence; an error thrown by a
message's pipeline aborts the loop and propagates (returned as some error),
keeping the effects already performed. -/
def processMessages (hash : String → String) (now : String)
    (account : EmailAccount) (folder : MailboxInfo) :
    List MessageInput → Trace × Option ESError
  | [] => ({}, none)
  | mi :: rest =>
    let r := handleEmail hash now mi.getResponse mi.classifyResponse
      mi.indexResponse mi.slackSendResponse mi.webhookPostResponse
      account mi.msg folder
    match r.1 with
    | .threw e => (r.2, some e)
    | _ =>
      let restRun := processMessages hash now account folder rest
      (traceAppend r.2 restRun.1, restRun.2)

/-- The result of one processFolderEmails call.  caughtError records that an
error was caught and logged by the outer catch at folder scope. -/
structure FolderRunResult where
  trace : Trace
  lockAcquired : Bool
  lockReleased : Bool
  caughtError : Bool
deriving DecidableEq, Repr

/-- EmailSyncService.processFolderEmails: getMailboxLock, then an inner
try/finally that releases the lock on every exit, inside an outer try/catch
that logs any error and returns normally.  lockResponse models getMailboxLock
itself failing (no lock exists then); fetchResponse models client.fetch
failing before yielding messages. -/
def processFolderEmails (hash : String → String) (now : String)
    (account : EmailAccount) (folder : MailboxInfo)
    (lockResponse : Except ESError Unit)
    (fetchResponse : Except ESError (List MessageInput)) : FolderRunResult :=
  match lockResponse with
  | .error _ =>
    { trace := {}, lockAcquired := false, lockReleased := false, caughtError := true }
  | .ok _ =>
    match fetchResponse with
    | .error _ =>
      { trace := {}, lockAcquired := true, lockReleased := true, caughtError := true }
    | .ok msgs =>
      let r := processMessages hash now account folder msgs
      { trace := r.1
        lockAcquired := true
        lockReleased := true
        caughtError := r.2.isSome }

/-- One folder's share of the connectAndSync folder loop input. -/
structure FolderInput where
  folder : MailboxInfo
  lockResponse : Except ESError Unit
  fetchResponse : Except ESError (List MessageInput)
deriving Repr

/-- The folder loop of connectAndSync (lines 97-109): the folders of one
account processed in listing order, each inside its own try/catch (and
processFolderEmails additionally catches at folder scope), so every folder
yields a result. -/
def syncFolders (hash : String → String) (now : String)
    (account : EmailAccount) : List FolderInput → List FolderRunResult
  | [] => []
  | fi :: rest =>
    processFolderEmails hash now account fi.folder fi.lockResponse fi.fetchResponse ::
      syncFolders hash now account rest

/-! ## Connection lifecycle flags (connectAndSync line 94,
setupRealtimeMonitoring lines 198-217, setupConnectionMaintenance
lines 219-244)

connectAndSync declares a local boolean `let running = true` and passes it
into setupRealtimeMonitoring and setupConnectionMaintenance.  JavaScript
passes primitive booleans by value, so each function body owns an
independent copy: the exists-event handler closes over
setupRealtimeMonitoring's parameter, while the close handler and the
keep-alive loop share setupConnectionMaintenance's parameter. -/

/-- The two per-call copies of the `running` flag. -/
structure RunningFlags where
  monitorRunning : Bool
  maintenanceRunning : Bool
deriving DecidableEq, Repr

/-- The flag values right after connectAndSync wires both setups: the single
`true` value was copied into each callee. -/
def connectAndSyncFlags : RunningFlags :=
  { monitorRunning := true, maintenanceRunning := true }

/-- The close handler (lines 220-224): the assignment running = false rebinds
setupConnectionMaintenance's own parameter, and one reconnect is scheduled
after the fixed 10 000 ms delay. -/
def onCloseEvent (s : RunningFlags) : RunningFlags × Nat :=
  ({ s with maintenanceRunning := false }, 10000)

/-- The guard at the top of the exists-event handler (line 200): the handler
proceeds to acquire the mailbox lock and fetch iff the copy of `running` it
closed over is still true. -/
def existsHandlerProceeds (s : RunningFlags) : Bool :=
  s.monitorRunning

/-- The keep-alive loop condition (line 232): it keeps probing iff
setupConnectionMaintenance's copy of `running` is still true. -/
def keepAliveContinues (s : RunningFlags) : Bool :=
  s.maintenanceRunning

/-! ## Concrete fixtures used by witnesses and counterexamples -/

/-- A concrete account. -/
def accA1 : EmailAccount :=
  { id := "A1", host := "imap.example.com", port := 993
    username := "u", password := "p", tls := true }

/-- The primary inbox folder as discovered (specialUse computed). -/
def inboxFolder : MailboxInfo :=
  { name := "INBOX", path := "INBOX", flags := [], specialUse := some "inbox" }

/-- A concrete fetched message with protocol identifier id-1. -/
def msgId1 : FetchMessageObject :=
  { envelope := some
      { messageId := some "<id-1>"
        subject := some "Interview Invite"
        «from» := some [{ address := "alice@example.com" }]
        «to» := some [{ address := "bob@example.com" }]
        date := some "2025-01-01" }
    source := some "body text" }

/-- A second concrete message with protocol identifier id-2. -/
def msgId2 : FetchMessageObject :=
  { envelope := some
      { messageId := some "<id-2>"
        subject := some "Newsletter"
        «from» := some [{ address := "news@example.com" }]
        «to» := some [{ address := "bob@example.com" }]
        date := some "2025-01-02" }
    source := some "other text" }

/-- A Gemini response whose text resolves to the Interested label. -/
def interestedResponse : Except Unit GeminiResponse :=
  .ok { text := some "Interested" }

/-- The not-found answer of the dedup probe. -/
def notFound404 : Except ESError Unit :=
  .error { statusCode := some 404 }

/-- A placeholder digest for concrete runs; every claim is insensitive to the
digest's concrete values. -/
def idHash : String → String := fun s => s

/-- A second discovered folder. -/
def sentFolder : MailboxInfo :=
  { name := "Sent", path := "Sent", flags := [], specialUse := some "sent" }

/-- The fallback entry getAllFolders returns when client.list() throws. -/
def fallbackInbox : MailboxInfo :=
  { name := "INBOX", path := "INBOX", flags := [], specialUse := none }

/-- A message whose pipeline fails on the index-store write (the exists probe
answered 404, the write throws a 500). -/
def msgInputWriteError : MessageInput :=
  { msg := msgId1
    getResponse := notFound404
    classifyResponse := interestedResponse
    indexResponse := some { statusCode := some 500 }
    slackSendResponse := .ok ()
    webhookPostResponse := .ok () }

/-- A message whose pipeline runs through cleanly. -/
def msgInputOk : MessageInput :=
  { msg := msgId2
    getResponse := notFound404
    classifyResponse := .ok { text := some "Spam" }
    indexResponse := none
    slackSendResponse := .ok ()
    webhookPostResponse := .ok () }

/-- A folder whose only message fails its index write. -/
def folderInputWriteError : FolderInput :=
  { folder := inboxFolder
    lockResponse := .ok ()
    fetchResponse := .ok [msgInputWriteError] }

/-- A folder whose only message indexes cleanly. -/
def folderInputOk : FolderInput :=
  { folder := sentFolder
    lockResponse := .ok ()
    fetchResponse := .ok [msgInputOk] }

/-- The first run of the idempotence scenario: message id-1 indexed into an
empty store. -/
def run1 : HandleOutcome × Trace × Store :=
  handleEmailOnStore idHash "d" interestedResponse (.ok ()) (.ok ()) []
    accA1 msgId1 inboxFolder

/-! ## Helper lemmas -/

theorem storeGet_storePut_same (store : Store) (id : String) (doc : EmailDoc) :
    storeGet (storePut store id doc) id = .ok doc := by
  simp [storeGet, storePut]

theorem handleEmail_dedup (hash : String → String) (now : String)
    (classifyR : Except Unit GeminiResponse) (idxR : Option ESError)
    (slackR webhookR : Except Unit Unit) (account : EmailAccount)
    (msg : FetchMessageObject) (folder : MailboxInfo) (raw : String)
    (h : msg.envelope.bind Envelope.messageId = some raw) :
    handleEmail hash now (.ok ()) classifyR idxR slackR webhookR account msg folder
      = (.alreadyExists, {}) := by
  unfold handleEmail
  rw [h]

theorem handleEmail_continue (hash : String → String) (now : String)
    (classifyR : Except Unit GeminiResponse)
    (slackR webhookR : Except Unit Unit) (account : EmailAccount)
    (msg : FetchMessageObject) (folder : MailboxInfo) (raw : String)
    (h : msg.envelope.bind Envelope.messageId = some raw) :
    handleEmail hash now (.error { statusCode := some 404 }) classifyR none
        slackR webhookR account msg folder
      = ((.indexed (buildEmailDoc hash now account msg folder raw)),
         { notificationPhase
             { subject := (buildEmailDoc hash now account msg folder raw).subject
               «from» := (buildEmailDoc hash now account msg folder raw).«from»
               account := account.id }
             (categorizeEmail ((msg.envelope.bind Envelope.subject).getD "")
               (msg.source.getD "") classifyR) slackR webhookR with
           indexWrites := [((buildEmailDoc hash now account msg folder raw).id,
                            buildEmailDoc hash now account msg folder raw)] }) := by
  unfold handleEmail
  rw [h]
  rfl

theorem handleEmail_threw_get (hash : String → String) (now : String)
    (classifyR : Except Unit GeminiResponse) (idxR : Option ESError)
    (slackR webhookR : Except Unit Unit) (account : EmailAccount)
    (msg : FetchMessageObject) (folder : MailboxInfo) (raw : String) (e : ESError)
    (h : msg.envelope.bind Envelope.messageId = some raw)
    (hne : e.statusCode ≠ some 404) :
    handleEmail hash now (.error e) classifyR idxR slackR webhookR account msg folder
      = (.threw e, {}) := by
  unfold handleEmail
  rw [h]
  simp [hne]

theorem charsInclude_of_prefix (s t : List Char) (hp : s.isPrefixOf t = true) :
    ∀ l, charsInclude l t = true → charsInclude l s = true := by
  intro l
  induction l with
  | nil =>
    intro h
    cases t with
    | nil =>
      have hs : s = [] := List.prefix_nil.mp (List.isPrefixOf_iff_prefix.mp hp)
      subst hs; rfl
    | cons x xs => simp [charsInclude] at h
  | cons c cs ih =>
    intro h
    cases t with
    | nil =>
      have hs : s = [] := List.prefix_nil.mp (List.isPrefixOf_iff_prefix.mp hp)
      subst hs; rfl
    | cons x xs =>
      have h' : (x :: xs).isPrefixOf (c :: cs) = true ∨ charsInclude cs (x :: xs) = true :=
        Bool.or_eq_true_iff.mp h
      cases s with
      | nil => rfl
      | cons y ys =>
        rcases h' with h1 | h2
        · have hyp : (y :: ys).isPrefixOf (c :: cs) = true :=
            List.isPrefixOf_iff_prefix.mpr
              ((List.isPrefixOf_iff_prefix.mp hp).trans (List.isPrefixOf_iff_prefix.mp h1))
          show ((y :: ys).isPrefixOf (c :: cs) || charsInclude cs (y :: ys)) = true
          simp [hyp]
        · have hin := ih h2
          show ((y :: ys).isPrefixOf (c :: cs) || charsInclude cs (y :: ys)) = true
          simp [hin]

theorem strIncludes_sent_of_sent_mail (s : String)
    (h : strIncludes s "sent mail" = true) : strIncludes s "sent" = true :=
  charsInclude_of_prefix ("sent".data) ("sent mail".data) (by decide) s.data h

theorem sent_cond_reduce (s : String) :
    (strIncludes s "sent" || strIncludes s "sent mail") = strIncludes s "sent" := by
  cases hs : strIncludes s "sent" with
  | true => simp
  | false =>
    cases hm : strIncludes s "sent mail" with
    | true => rw [strIncludes_sent_of_sent_mail s hm] at hs; cases hs
    | false => simp

theorem processFolderEmails_lock_release (hash : String → String) (now : String)
    (account : EmailAccount) (folder : MailboxInfo)
    (lockR : Except ESError Unit) (fetchR : Except ESError (List MessageInput))
    (h : (processFolderEmails hash now account folder lockR fetchR).lockAcquired = true) :
    (processFolderEmails hash now account folder lockR fetchR).lockReleased = true := by
  cases lockR with
  | error e => simp [processFolderEmails] at h
  | ok u =>
    cases fetchR with
    | error e => simp [processFolderEmails]
    | ok msgs => simp [processFolderEmails]

theorem syncFolders_length (hash : String → String) (now : String)
    (account : EmailAccount) (inputs : List FolderInput) :
    (syncFolders hash now account inputs).length = inputs.length := by
  induction inputs with
  | nil => rfl
  | cons fi rest ih => simp [syncFolders, ih]

theorem handleEmail_indexed_inv (hash : String → String) (now : String)
    (getR : Except ESError Unit) (classifyR : Except Unit GeminiResponse)
    (idxR : Option ESError) (slackR webhookR : Except Unit Unit)
    (account : EmailAccount) (msg : FetchMessageObject) (folder : MailboxInfo)
    (doc : EmailDoc)
    (h : (handleEmail hash now getR classifyR idxR slackR webhookR
            account msg folder).1 = .indexed doc) :
    ∃ raw, msg.envelope.bind Envelope.messageId = some raw ∧
      doc = buildEmailDoc hash now account msg folder raw ∧
      (handleEmail hash now getR classifyR idxR slackR webhookR
         account msg folder).2.indexWrites = [(doc.id, doc)] := by
  unfold handleEmail at h ⊢
  cases hbind : msg.envelope.bind Envelope.messageId with
  | none =>
    rw [hbind] at h
    simp at h
  | some raw =>
    refine ⟨raw, rfl, ?_⟩
    cases getR with
    | ok u => rw [hbind] at h; simp at h
    | error e =>
      by_cases hc : e.statusCode = some 404
      · cases idxR with
        | some e2 => rw [hbind] at h; simp [hc] at h
        | none =>
          rw [hbind] at h
          simp [hc] at h
          subst h
          simp [hc]
      · rw [hbind] at h; simp [hc] at h

/-! ## Claim theorems -/

/-- Claim C2, evaluated on the code at the failing input: firing the close
event deactivates only setupConnectionMaintenance's by-value copy of the
running flag (stopping the keep-alive loop and scheduling one reconnect after
10000 ms), while the copy the exists-event handler closed over is never set to
false — so a new-message event delivered after close is NOT ignored: the
handler still proceeds to acquire the lock and fetch.  This refutes the claim
that every new-message event between close and reconnect is ignored. -/
theorem claim2_close_leaves_live_subscriber_active :
    existsHandlerProceeds (onCloseEvent connectAndSyncFlags).1 = true ∧
    keepAliveContinues (onCloseEvent connectAndSyncFlags).1 = false ∧
    (onCloseEvent connectAndSyncFlags).2 = 10000 := by
  decide

/-- Claim C5: determineSpecialUse performs a case-insensitive substring match
against the ordered name keywords, falls back to the ordered protocol-flag
list only when no name keyword matches, and returns custom when neither
matches (stated as extensional equality with the classifier written from the
spec's algorithm description); in particular Gmail's Sent Mail folder maps to
sent, an unrecognized name with a Junk flag maps to spam, and unmatched name
and flags map to custom. -/
theorem claim5_folder_classifier :
    (∀ name flags, determineSpecialUse name flags = folderClassifierSpec name flags) ∧
    determineSpecialUse "[Gmail]/Sent Mail" [] = "sent" ∧
    determineSpecialUse "Weird" ["\\Junk"] = "spam" ∧
    determineSpecialUse "Weird" ["\\Other"] = "custom" := by
  refine ⟨?_, by decide, by decide, by decide⟩
  intro name flags
  simp only [determineSpecialUse, folderClassifierSpec, nameKeywordTag, flagTag,
    sent_cond_reduce]
  cases h1 : strIncludes (strToLower name) "inbox"
  case true => simp
  cases h2 : strIncludes (strToLower name) "sent"
  case true => simp
  cases h3 : strIncludes (strToLower name) "draft"
  case true => simp
  cases h4 : strIncludes (strToLower name) "spam" || strIncludes (strToLower name) "junk"
  case true => simp
  cases h5 : strIncludes (strToLower name) "trash" || strIncludes (strToLower name) "bin"
  case true => simp
  cases h6 : strIncludes (strToLower name) "important"
  case true => simp
  cases h7 : strIncludes (strToLower name) "starred"
  case true => simp
  cases h8 : strIncludes (strToLower name) "all mail"
  case true => simp
  cases h9 : flags.contains "\\Inbox"
  case true => simp
  cases h10 : flags.contains "\\Sent"
  case true => simp
  cases h11 : flags.contains "\\Drafts"
  case true => simp
  cases h12 : flags.contains "\\Junk" || flags.contains "\\Spam"
  case true => simp
  cases h13 : flags.contains "\\Trash"
  case true => simp
  cases h14 : flags.contains "\\Important"
  case true => simp
  cases h15 : flags.contains "\\All"
  case true => simp
  simp

/-- Claim C6: fingerprinting strips angle brackets and surrounding whitespace
before hashing, so any two raw message identifiers with equal normalized forms
yield equal fingerprints; in particular the bracketed and whitespace-padded
spellings of abc@x agree for every digest function. -/
theorem claim6_fingerprint_stability :
    (∀ (hash : String → String) (a b : String),
        normalizeMessageId a = normalizeMessageId b →
        fingerprint hash a = fingerprint hash b) ∧
    (∀ hash : String → String,
        fingerprint hash "<abc@x>" = fingerprint hash " abc@x ") := by
  constructor
  · intro hash a b h
    unfold fingerprint
    rw [h]
  · intro hash
    exact congrArg hash (by decide)

/-- Witness for C6 at the concrete pair of identifiers. -/
theorem claim6_witness :
    fingerprint idHash "<abc@x>" = fingerprint idHash " abc@x " :=
  claim6_fingerprint_stability.1 idHash "<abc@x>" " abc@x " (by decide)

/-- Claim C7: when the classification call fails, categorizeEmail returns the
fixed fallback label Spam instead of propagating the failure, and handleEmail
still persists the message document — the run indexes the built document and
records exactly its index write, so a classification failure never aborts
indexing. -/
theorem claim7_classifier_degradation :
    (∀ subject body, categorizeEmail subject body (.error ()) = "Spam") ∧
    (∀ (hash : String → String) (now : String) (slackR webhookR : Except Unit Unit)
        (account : EmailAccount) (msg : FetchMessageObject) (folder : MailboxInfo)
        (raw : String),
        msg.envelope.bind Envelope.messageId = some raw →
        (handleEmail hash now (.error { statusCode := some 404 }) (.error ()) none
            slackR webhookR account msg folder).1
          = .indexed (buildEmailDoc hash now account msg folder raw) ∧
        (handleEmail hash now (.error { statusCode := some 404 }) (.error ()) none
            slackR webhookR account msg folder).2.indexWrites
          = [((buildEmailDoc hash now account msg folder raw).id,
              buildEmailDoc hash now account msg folder raw)]) := by
  constructor
  · intro subject body
    rfl
  · intro hash now slackR webhookR account msg folder raw h
    rw [handleEmail_continue hash now (.error ()) slackR webhookR account msg folder raw h]
    exact ⟨rfl, rfl⟩

/-- Witness for C7: message id-1 with a failed classification still gets
indexed. -/
theorem claim7_witness :
    (handleEmail idHash "d" (.error { statusCode := some 404 }) (.error ()) none
        (.ok ()) (.ok ()) accA1 msgId1 inboxFolder).1
      = .indexed (buildEmailDoc idHash "d" accA1 msgId1 inboxFolder "<id-1>") :=
  (claim7_classifier_degradation.2 idHash "d" (.ok ()) (.ok ()) accA1 msgId1
    inboxFolder "<id-1>" rfl).1

/-- Claim C8: the dedup probe treats a thrown 404 as document-absent and
continues the pipeline (with the index write succeeding, the run indexes a
document), while a thrown error whose statusCode is anything other than 404 —
including absent — propagates out of handleEmail with no effects performed. -/
theorem claim8_dedup_error_handling :
    ∀ (hash : String → String) (now : String) (classifyR : Except Unit GeminiResponse)
      (idxR : Option ESError) (slackR webhookR : Except Unit Unit)
      (account : EmailAccount) (msg : FetchMessageObject) (folder : MailboxInfo)
      (raw : String) (e : ESError),
      msg.envelope.bind Envelope.messageId = some raw →
      (e.statusCode ≠ some 404 →
        handleEmail hash now (.error e) classifyR idxR slackR webhookR account msg folder
          = (.threw e, {})) ∧
      (e.statusCode = some 404 → idxR = none →
        ∃ doc, (handleEmail hash now (.error e) classifyR idxR slackR webhookR
            account msg folder).1 = .indexed doc) := by
  intro hash now classifyR idxR slackR webhookR account msg folder raw e hbind
  constructor
  · intro hne
    exact handleEmail_threw_get hash now classifyR idxR slackR webhookR
      account msg folder raw e hbind hne
  · intro hc hidx
    subst hidx
    obtain ⟨oc⟩ := e
    simp only at hc
    subst hc
    rw [handleEmail_continue hash now classifyR slackR webhookR account msg folder raw hbind]
    exact ⟨_, rfl⟩

/-- Witness for C8: a thrown 500 from the dedup probe propagates unchanged. -/
theorem claim8_witness :
    handleEmail idHash "d" (.error { statusCode := some 500 }) interestedResponse none
        (.ok ()) (.ok ()) accA1 msgId1 inboxFolder
      = (.threw { statusCode := some 500 }, {}) :=
  ((claim8_dedup_error_handling idHash "d" interestedResponse none (.ok ()) (.ok ())
      accA1 msgId1 inboxFolder "<id-1>" { statusCode := some 500 } rfl).1 (by decide))

/-- Claim C1: whenever a handleEmail run against the index store indexed a
document, running handleEmail again for the same raw message on the resulting
store finds the document via the dedup probe and returns as a no-op — outcome
alreadyExists, empty effect trace (no index write, no notifier call), store
unchanged — whatever the second run's classifier and notifier responses are. -/
theorem claim1_idempotent_reprocessing
    (hash : String → String) (now now2 : String)
    (c1 c2 : Except Unit GeminiResponse) (s1 s2 w1 w2 : Except Unit Unit)
    (store : Store) (account : EmailAccount) (msg : FetchMessageObject)
    (folder : MailboxInfo) (doc : EmailDoc) (tr1 : Trace) (store1 : Store)
    (h : handleEmailOnStore hash now c1 s1 w1 store account msg folder
          = (.indexed doc, tr1, store1)) :
    handleEmailOnStore hash now2 c2 s2 w2 store1 account msg folder
      = (.alreadyExists, {}, store1) := by
  rw [handleEmailOnStore] at h ⊢
  simp only [Prod.mk.injEq] at h
  obtain ⟨h1, h2, h3⟩ := h
  obtain ⟨raw, hbind, hdoc, hwrites⟩ :=
    handleEmail_indexed_inv hash now (storeGetResponse hash store msg) c1 none s1 w1
      account msg folder doc h1
  rw [hwrites] at h3
  simp only [List.foldl_cons, List.foldl_nil] at h3
  have hid : fingerprint hash raw = doc.id := by
    rw [hdoc]; rfl
  have hget : storeGetResponse hash store1 msg = .ok () := by
    unfold storeGetResponse
    rw [hbind]
    dsimp only
    rw [hid, ← h3, storeGet_storePut_same]
    rfl
  rw [hget, handleEmail_dedup hash now2 c2 none s2 w2 account msg folder raw hbind]
  rfl

/-- Witness for C1: message id-1 indexed into the empty store, then processed
again on the resulting store. -/
theorem claim1_witness :
    handleEmailOnStore idHash "d2" interestedResponse (.ok ()) (.ok ()) run1.2.2
        accA1 msgId1 inboxFolder
      = (.alreadyExists, {}, run1.2.2) :=
  claim1_idempotent_reprocessing idHash "d" "d2" interestedResponse interestedResponse
    (.ok ()) (.ok ()) (.ok ()) (.ok ()) [] accA1 msgId1 inboxFolder
    (buildEmailDoc idHash "d" accA1 msgId1 inboxFolder "<id-1>") run1.2.1 run1.2.2
    (by decide)

/-- Claim C3 as stated is false on the code: both notifier awaits sit in one
try block with the Slack call first, so a Slack failure skips the webhook
call.  Concrete run: the classifier resolves Interested and the Slack send
fails — the Slack call was made, the webhook call was not, yet the document
was still indexed. -/
theorem claim3_counterexample :
    (handleEmail idHash "d" notFound404 interestedResponse none (.error ()) (.ok ())
        accA1 msgId1 inboxFolder).2.slackCalls
      = [{ subject := "Interview Invite", «from» := "alice@example.com", account := "A1" }] ∧
    (handleEmail idHash "d" notFound404 interestedResponse none (.error ()) (.ok ())
        accA1 msgId1 inboxFolder).2.webhookCalls = [] ∧
    (handleEmail idHash "d" notFound404 interestedResponse none (.error ()) (.ok ())
        accA1 msgId1 inboxFolder).1
      = .indexed (buildEmailDoc idHash "d" accA1 msgId1 inboxFolder "<id-1>") := by
  decide

/-- Claim C3 amended: for a message resolved to Interested, the chat notifier
is always called and the webhook call is made exactly when the chat notifier
succeeded (a chat-notifier failure prevents it; the webhook sink swallows its
own failures); neither notifier failure propagates out of handleEmail, and the
persisted document's index write is unaffected. -/
theorem claim3_notifier_sequencing :
    ∀ (hash : String → String) (now : String) (classifyR : Except Unit GeminiResponse)
      (slackR webhookR : Except Unit Unit) (account : EmailAccount)
      (msg : FetchMessageObject) (folder : MailboxInfo) (raw : String),
      msg.envelope.bind Envelope.messageId = some raw →
      categorizeEmail ((msg.envelope.bind Envelope.subject).getD "")
          (msg.source.getD "") classifyR = "Interested" →
      ∃ doc ev,
        (handleEmail hash now (.error { statusCode := some 404 }) classifyR none
            slackR webhookR account msg folder).1 = .indexed doc ∧
        (handleEmail hash now (.error { statusCode := some 404 }) classifyR none
            slackR webhookR account msg folder).2.indexWrites = [(doc.id, doc)] ∧
        (handleEmail hash now (.error { statusCode := some 404 }) classifyR none
            slackR webhookR account msg folder).2.slackCalls = [ev] ∧
        (slackR = .error () →
          (handleEmail hash now (.error { statusCode := some 404 }) classifyR none
              slackR webhookR account msg folder).2.webhookCalls = []) ∧
        (slackR = .ok () →
          (handleEmail hash now (.error { statusCode := some 404 }) classifyR none
              slackR webhookR account msg folder).2.webhookCalls = [ev]) := by
  intro hash now classifyR slackR webhookR account msg folder raw hbind hcat
  rw [handleEmail_continue hash now classifyR slackR webhookR account msg folder raw hbind,
    hcat]
  refine ⟨buildEmailDoc hash now account msg folder raw,
    { subject := (buildEmailDoc hash now account msg folder raw).subject
      «from» := (buildEmailDoc hash now account msg folder raw).«from»
      account := account.id }, ?_⟩
  cases slackR with
  | error u =>
    cases u
    exact ⟨rfl, rfl, rfl, fun _ => rfl, fun hco => nomatch hco⟩
  | ok u =>
    cases u
    cases webhookR with
    | ok v =>
      cases v
      refine ⟨rfl, rfl, rfl, fun hco => ?_, fun _ => rfl⟩
      exact absurd hco (by simp)
    | error v =>
      cases v
      refine ⟨rfl, rfl, rfl, fun hco => ?_, fun _ => rfl⟩
      exact absurd hco (by simp)

/-- Witness for C3 (amended) at the concrete Interested message with a failing
Slack send. -/
theorem claim3_witness :
    ∃ doc ev,
      (handleEmail idHash "d" notFound404 interestedResponse none
          (.error ()) (.ok ()) accA1 msgId1 inboxFolder).1 = .indexed doc ∧
      (handleEmail idHash "d" notFound404 interestedResponse none
          (.error ()) (.ok ()) accA1 msgId1 inboxFolder).2.indexWrites = [(doc.id, doc)] ∧
      (handleEmail idHash "d" notFound404 interestedResponse none
          (.error ()) (.ok ()) accA1 msgId1 inboxFolder).2.slackCalls = [ev] ∧
      ((.error () : Except Unit Unit) = .error () →
        (handleEmail idHash "d" notFound404 interestedResponse none
            (.error ()) (.ok ()) accA1 msgId1 inboxFolder).2.webhookCalls = []) ∧
      ((.error () : Except Unit Unit) = .ok () →
        (handleEmail idHash "d" notFound404 interestedResponse none
            (.error ()) (.ok ()) accA1 msgId1 inboxFolder).2.webhookCalls = [ev]) :=
  claim3_notifier_sequencing idHash "d" interestedResponse (.error ()) (.ok ())
    accA1 msgId1 inboxFolder "<id-1>" rfl (by decide)

/-- Claim C4 as stated is false on the code: a run whose classification
resolves to Interested persists a document whose aiCategory field is null
rather than the resolved label. -/
theorem claim4_counterexample :
    categorizeEmail "Interview Invite" "body text" interestedResponse = "Interested" ∧
    (handleEmail idHash "d" notFound404 interestedResponse none (.ok ()) (.ok ())
        accA1 msgId1 inboxFolder).2.indexWrites.map (fun p => p.2.aiCategory)
      = [none] ∧
    (none : Option String) ≠ some "Interested" := by
  decide

/-- Claim C4 amended: for every message newly indexed by handleEmail, the
persisted document's id equals the fingerprint of the message identifier, but
its aiCategory field is null — the resolved classification is used only to
gate notifications and is not persisted. -/
theorem claim4_indexed_document_fields :
    ∀ (hash : String → String) (now : String) (getR : Except ESError Unit)
      (classifyR : Except Unit GeminiResponse) (idxR : Option ESError)
      (slackR webhookR : Except Unit Unit) (account : EmailAccount)
      (msg : FetchMessageObject) (folder : MailboxInfo) (doc : EmailDoc),
      (handleEmail hash now getR classifyR idxR slackR webhookR account msg folder).1
        = .indexed doc →
      doc.aiCategory = none ∧
      ∃ raw, msg.envelope.bind Envelope.messageId = some raw ∧
        doc.id = fingerprint hash raw := by
  intro hash now getR classifyR idxR slackR webhookR account msg folder doc h
  obtain ⟨raw, hbind, hdoc, hwrites⟩ :=
    handleEmail_indexed_inv hash now getR classifyR idxR slackR webhookR
      account msg folder doc h
  subst hdoc
  exact ⟨rfl, raw, hbind, rfl⟩

/-- Witness for C4 (amended) at the concrete indexed message id-1. -/
theorem claim4_witness :
    (buildEmailDoc idHash "d" accA1 msgId1 inboxFolder "<id-1>").aiCategory = none ∧
    ∃ raw, msgId1.envelope.bind Envelope.messageId = some raw ∧
      (buildEmailDoc idHash "d" accA1 msgId1 inboxFolder "<id-1>").id
        = fingerprint idHash raw :=
  claim4_indexed_document_fields idHash "d" notFound404 interestedResponse none
    (.ok ()) (.ok ()) accA1 msgId1 inboxFolder
    (buildEmailDoc idHash "d" accA1 msgId1 inboxFolder "<id-1>") (by decide)

/-- Claim C9: the folder loop yields a result for every folder regardless of
failures in earlier folders, and whenever the mailbox lock was acquired for a
folder it is released on every exit path; shown concretely for a two-folder
account whose first folder's only message throws on its index write — the
error is caught at folder scope (logged), the lock is still released, and the
second folder still indexes its message. -/
theorem claim9_folder_isolation_and_lock_release :
    (∀ (hash : String → String) (now : String) (account : EmailAccount)
        (inputs : List FolderInput),
        (syncFolders hash now account inputs).length = inputs.length ∧
        ∀ r ∈ syncFolders hash now account inputs,
          r.lockAcquired = true → r.lockReleased = true) ∧
    (syncFolders idHash "d" accA1 [folderInputWriteError, folderInputOk]).map
        (fun r => (r.caughtError, r.lockAcquired, r.lockReleased,
                   r.trace.indexWrites.length))
      = [(true, true, true, 0), (false, true, true, 1)] := by
  constructor
  · intro hash now account inputs
    refine ⟨syncFolders_length hash now account inputs, ?_⟩
    induction inputs with
    | nil => intro r hr; simp [syncFolders] at hr
    | cons fi rest ih =>
      intro r hr
      simp only [syncFolders, List.mem_cons] at hr
      rcases hr with hr | hr
      · subst hr
        exact processFolderEmails_lock_release hash now account fi.folder
          fi.lockResponse fi.fetchResponse
      · exact ih r hr
  · decide

/-- Witness for C9 at the concrete failing folder. -/
theorem claim9_witness :
    (processFolderEmails idHash "d" accA1 folderInputWriteError.folder
        folderInputWriteError.lockResponse folderInputWriteError.fetchResponse).lockReleased
      = true :=
  (claim9_folder_isolation_and_lock_release.1 idHash "d" accA1
      [folderInputWriteError]).2 _ (by simp [syncFolders]) (by decide)

/-- Claim C10: when folder discovery fails, getAllFolders swallows the error
and returns the single fallback INBOX entry with empty flags and no specialUse
tag, so every document handleEmail indexes for that fallback folder carries an
undefined (none) folderType. -/
theorem claim10_folder_discovery_fallback :
    getAllFolders (.error ()) = [fallbackInbox] ∧
    fallbackInbox.name = "INBOX" ∧ fallbackInbox.flags = [] ∧
    fallbackInbox.specialUse = none ∧
    (∀ (hash : String → String) (now : String) (getR : Except ESError Unit)
        (classifyR : Except Unit GeminiResponse) (idxR : Option ESError)
        (slackR webhookR : Except Unit Unit) (account : EmailAccount)
        (msg : FetchMessageObject) (doc : EmailDoc),
        (handleEmail hash now getR classifyR idxR slackR webhookR account msg
            fallbackInbox).1 = .indexed doc →
        doc.folderType = none) := by
  refine ⟨rfl, rfl, rfl, rfl, ?_⟩
  intro hash now getR classifyR idxR slackR webhookR account msg doc h
  obtain ⟨raw, hbind, hdoc, hwrites⟩ :=
    handleEmail_indexed_inv hash now getR classifyR idxR slackR webhookR
      account msg fallbackInbox doc h
  subst hdoc
  rfl

/-- Witness for C10: the concrete message id-1 indexed from the fallback
folder carries no folderType. -/
theorem claim10_witness :
    (buildEmailDoc idHash "d" accA1 msgId1 fallbackInbox "<id-1>").folderType = none :=
  claim10_folder_discovery_fallback.2.2.2.2 idHash "d" notFound404 interestedResponse
    none (.ok ()) (.ok ()) accA1 msgId1
    (buildEmailDoc idHash "d" accA1 msgId1 fallbackInbox "<id-1>") (by decide)

end Ob
